import Mathlib

/-!
Verification of the cloudscan-runner scan execution pipeline.

Shallow embedding of the Go sources:
- data model (`pb.Finding`, `scanners.Result`, scan status/type enums),
- the four adapters' severity mappings (trivy.go, semgrep in trivy.go part,
  scancode.go),
- the TruffleHog streaming line parser (secrets adapter),
- the parallel orchestrator `runScannersParallel` and the `runScan`
  driver (cmd main),
- the orchestrator client `CreateFindings`,
- the downloader (`downloadFile`, `DownloadAndExtract`, `extractZip`,
  `extractFile`) together with a faithful model of Go's
  `path/filepath` `Clean`, `Join` and `Dir` on Linux (separator `/`).

External effects (subprocess execution, JSON decoding, HTTP, the gRPC
connection, the filesystem) are modelled by explicit parameters carrying
their outcomes for the run under consideration, and by traces of the
calls issued.
-/

namespace CloudScan

/-- `pb.Severity`, ordered LOW < MEDIUM < HIGH < CRITICAL. -/
inductive Severity
  | LOW
  | MEDIUM
  | HIGH
  | CRITICAL
deriving Repr, DecidableEq

/-- `pb.ScanType` categories. -/
inductive ScanType
  | SAST
  | SCA
  | SECRETS
  | LICENSE
deriving Repr, DecidableEq

/-- `pb.ScanStatus` lifecycle values used by the runner. -/
inductive ScanStatus
  | RUNNING
  | COMPLETED
  | FAILED
deriving Repr, DecidableEq

/-- `pb.Finding`: one normalized detection record (zero values for
unset optional fields, as in Go). -/
structure Finding where
  scanType : ScanType
  severity : Severity
  title : String
  description : String
  filePath : String
  lineNumber : Int := 0
  codeSnippet : String := ""
  cweId : String := ""
  cveId : String := ""
deriving Repr, DecidableEq

/-- `scanners.Result`: one adapter's outcome slot
(src/internal/scanners/scanner.go). `Error` is `some msg` exactly when the
adapter's `Scan` returned a non-nil error. -/
structure Result where
  Findings : List Finding
  ScanType : CloudScan.ScanType
  ScannerName : String
  Error : Option String
deriving Repr, DecidableEq

/-- An adapter as seen by the orchestrator for one run: the pure
observations `Name()` and `ScanType()`, plus the outcome this run's
`Scan(ctx, sourceDir)` call produces (findings, error). -/
structure Scanner where
  Name : String
  scanType : CloudScan.ScanType
  scanFindings : List Finding
  scanError : Option String
deriving Repr, DecidableEq

/-- `runScannersParallel` (cmd main): each scanner `i` runs in its own
goroutine and writes only slot `i` of a pre-sized result slice; the
`WaitGroup` barrier joins them all. Slot `i`'s value depends only on
scanner `i`, so the denotation of the fan-out/fan-in is the positional
map below. -/
def runScannersParallel (scannerList : List Scanner) : List Result :=
  scannerList.map fun scnr =>
    { Findings := scnr.scanFindings
      ScanType := scnr.scanType
      ScannerName := scnr.Name
      Error := scnr.scanError }

/-- `TrivyScanner.mapSeverity` (src/internal/scanners/trivy.go): Trivy
severity string to proto severity. -/
def TrivyScanner.mapSeverity (severity : String) : Severity :=
  if severity = "CRITICAL" then .CRITICAL
  else if severity = "HIGH" then .HIGH
  else if severity = "MEDIUM" then .MEDIUM
  else if severity = "LOW" then .LOW
  else .MEDIUM

/-- `SemgrepScanner.mapSeverity` (src/internal/scanners/trivy.go, semgrep
part): Semgrep severity string to proto severity. -/
def SemgrepScanner.mapSeverity (severity : String) : Severity :=
  if severity = "ERROR" then .HIGH
  else if severity = "WARNING" then .MEDIUM
  else if severity = "INFO" then .LOW
  else .MEDIUM

/-- `ScanCodeScanner.getLicenseSeverity` (src/internal/scanners/scancode.go):
license category to proto severity. -/
def ScanCodeScanner.getLicenseSeverity (category : String) : Severity :=
  if category = "Copyleft" ∨ category = "Strong Copyleft" then .HIGH
  else if category = "Copyleft Limited" then .MEDIUM
  else if category = "Permissive" then .LOW
  else if category = "Proprietary Free" then .LOW
  else .MEDIUM

/-! ### Go `path/filepath` on Linux (separator `/`)

The downloader (src/unnamed/part_005) resolves each archive entry with
`filepath.Join(destDir, f.Name)` and checks
`filepath.HasPrefix(destPath, filepath.Clean(destDir)+"/")`.
On Linux `filepath.Clean` is `path.Clean` with separator `/` and
`filepath.HasPrefix` is plain string-prefix comparison. `Clean` is
modelled component-wise, which is equivalent to the stdlib's in-place
byte algorithm: empty and `.` components vanish, `..` pops a previous
real component, climbs above the start of a relative path, and is
absorbed by the root of an absolute path. -/

/-- Split a character list on every `/` (the semantics of
`strings.Split(path, "/")`): computable by structural recursion so the
kernel can evaluate concrete instances. -/
def splitOnSlash : List Char → List (List Char)
  | [] => [[]]
  | c :: rest =>
    let r := splitOnSlash rest
    if c = '/' then [] :: r
    else
      match r with
      | [] => [[c]]
      | h :: t => (c :: h) :: t

/-- Join components back with `/` separators. -/
def joinSlash : List (List Char) → List Char
  | [] => []
  | [c] => c
  | c :: rest => c ++ '/' :: joinSlash rest

/-- Front-segment test on character lists (the semantics of
`strings.HasPrefix`, which is what `filepath.HasPrefix` is on Linux). -/
def startsWithChars : List Char → List Char → Bool
  | _, [] => true
  | [], _ :: _ => false
  | a :: as, b :: bs => a = b && startsWithChars as bs

/-- One pass of Go `Clean`'s element processing: `acc` is the stack of
kept components in reverse order. Empty and `.` components vanish; `..`
pops a previous real component, stacks up at the front of a relative
path, and is absorbed by the root of an absolute path. -/
def cleanComponents (rooted : Bool) : List (List Char) → List (List Char) → List (List Char)
  | acc, [] => acc.reverse
  | acc, c :: rest =>
    if c = [] ∨ c = ['.'] then cleanComponents rooted acc rest
    else if c = ['.', '.'] then
      match acc with
      | top :: accTail =>
        if top = ['.', '.'] then cleanComponents rooted (['.', '.'] :: top :: accTail) rest
        else cleanComponents rooted accTail rest
      | [] =>
        if rooted then cleanComponents rooted [] rest
        else cleanComponents rooted [['.', '.']] rest
    else cleanComponents rooted (c :: acc) rest

/-- `Clean` on the underlying character list. -/
def cleanChars (path : List Char) : List Char :=
  match path with
  | [] => ['.']
  | c0 :: _ =>
    let rooted := c0 = '/'
    let comps := cleanComponents rooted [] (splitOnSlash path)
    let out := (if rooted then ['/'] else []) ++ joinSlash comps
    if out = [] then ['.'] else out

/-- Go `filepath.Clean` (Linux): shortest lexically-equivalent path. -/
def Clean (path : String) : String :=
  ⟨cleanChars path.data⟩

/-- Go `filepath.Join` on two elements: empty elements are skipped, the
rest are `/`-joined and the result is `Clean`ed. -/
def Join2 (a b : String) : String :=
  if a = "" ∧ b = "" then ""
  else if a = "" then Clean b
  else if b = "" then Clean a
  else Clean (a ++ "/" ++ b)

/-- Go `filepath.Dir` (Linux): all but the last path element, `Clean`ed;
`.` when the path holds no separator. -/
def Dir (path : String) : String :=
  let parts := splitOnSlash path.data
  if parts.length ≤ 1 then "."
  else ⟨cleanChars (joinSlash parts.dropLast ++ ['/'])⟩

/-! ### Downloader: zip extraction (src/unnamed/part_005) -/

/-- One zip archive entry as `extractFile` observes it: its declared
name and whether `f.FileInfo().IsDir()` holds. Modes and contents do not
affect which paths are touched. -/
structure ZipEntry where
  name : String
  isDir : Bool
deriving Repr, DecidableEq

/-- A filesystem mutation performed by `extractFile`. -/
inductive FileAction
  | mkdirAll (path : String)
  | writeFile (path : String)
deriving Repr, DecidableEq

/-- The zip-slip guard of `Downloader.extractFile`: the resolved
destination path must keep `Clean(destDir) + "/"` as a literal string
front segment. -/
def withinDir (destDir destPath : String) : Bool :=
  startsWithChars destPath.data ((Clean destDir).data ++ ['/'])

/-- `Downloader.extractFile`: resolve the entry path, reject it when the
zip-slip check fails, otherwise create the directory (directory entries)
or the parent directory plus the file itself (file entries). I/O errors
of the copy are not modelled: they do not add written paths. -/
def extractFile (f : ZipEntry) (destDir : String) : Except String (List FileAction) :=
  let destPath := Join2 destDir f.name
  if ¬ withinDir destDir destPath then
    .error ("invalid file path: " ++ f.name)
  else if f.isDir then
    .ok [.mkdirAll destPath]
  else
    .ok [.mkdirAll (Dir destPath), .writeFile destPath]

/-- `Downloader.extractZip`'s loop over `r.File`: entries are processed
in order; the first failing entry aborts the extraction with a wrapped
error, leaving the actions already performed in place (no rollback).
Returns the performed actions and the error, if any. -/
def extractZipRun (entries : List ZipEntry) (destDir : String) :
    List FileAction × Option String :=
  match entries with
  | [] => ([], none)
  | f :: rest =>
    match extractFile f destDir with
    | .error e => ([], some ("failed to extract " ++ f.name ++ ": " ++ e))
    | .ok acts =>
      let tail := extractZipRun rest destDir
      (acts ++ tail.1, tail.2)

/-- `Downloader.extractZip`'s returned error (none = success). -/
def extractZip (entries : List ZipEntry) (destDir : String) : Option String :=
  (extractZipRun entries destDir).2

/-! ### Downloader: HTTP fetch (src/unnamed/part_005) -/

/-- The part of an `http.Response` `downloadFile` inspects: the numeric
status code and its textual `Status` line. -/
structure HTTPResponse where
  statusCode : Nat
  status : String
deriving Repr, DecidableEq

/-- `Downloader.downloadFile`: request construction, transport, status
check, output-file creation and body copy, each step's failure supplied
as an explicit outcome (`some msg` = the Go call returned that error).
Returns the error `downloadFile` itself returns, `none` on success. -/
def downloadFile (newRequestErr doErr : Option String) (resp : HTTPResponse)
    (createErr copyErr : Option String) : Option String :=
  match newRequestErr with
  | some e => some ("failed to create request: " ++ e)
  | none =>
    match doErr with
    | some e => some ("failed to download: " ++ e)
    | none =>
      if resp.statusCode ≠ 200 then
        some ("download failed with status: " ++ resp.status)
      else
        match createErr with
        | some e => some ("failed to create file: " ++ e)
        | none =>
          match copyErr with
          | some e => some ("failed to write file: " ++ e)
          | none => none

/-- `Downloader.DownloadAndExtract`: make the destination directory,
download to a temp file, then extract. Returns the error (if any) and
the filesystem actions the extraction performed. -/
def DownloadAndExtract (mkdirErr newRequestErr doErr : Option String)
    (resp : HTTPResponse) (createErr copyErr zipOpenErr : Option String)
    (entries : List ZipEntry) (destDir : String) :
    Option String × List FileAction :=
  match mkdirErr with
  | some e => (some ("failed to create destination directory: " ++ e), [])
  | none =>
    match downloadFile newRequestErr doErr resp createErr copyErr with
    | some e => (some ("failed to download source: " ++ e), [])
    | none =>
      match zipOpenErr with
      | some e => (some ("failed to extract source: failed to open zip: " ++ e), [])
      | none =>
        let run := extractZipRun entries destDir
        match run.2 with
        | some e => (some ("failed to extract source: " ++ e), run.1)
        | none => (none, run.1)

/-! ### TruffleHog secrets adapter (src/unnamed/part_007) -/

/-- The fields the secrets adapter decodes from one line of TruffleHog's
newline-delimited JSON output. -/
structure TruffleRecord where
  file : String
  line : Int
  detectorName : String
  verified : Bool
deriving Repr, DecidableEq

/-- The `pb.Finding` the secrets adapter builds for one decoded line:
always category SECRETS and severity HIGH, with the verified flag noted
in the description. -/
def truffleFinding (r : TruffleRecord) : Finding :=
  { scanType := .SECRETS
    severity := .HIGH
    title := "Secret detected: " ++ r.detectorName
    description :=
      "Potential secret found in source code" ++
        (if r.verified then " (VERIFIED - this secret is active!)" else "")
    filePath := r.file
    lineNumber := r.line }

/-- The `bufio.Scanner` loop of `TruffleHogScanner.Scan`: empty lines
are skipped, a line `json.Unmarshal` rejects (`parse` returns `none`) is
logged and skipped, a decoded line appends one finding. `parse` stands
for `json.Unmarshal` into the line's record struct. -/
def processLines (parse : String → Option TruffleRecord) :
    List String → List Finding
  | [] => []
  | line :: rest =>
    if line = "" then processLines parse rest
    else
      match parse line with
      | none => processLines parse rest
      | some r => truffleFinding r :: processLines parse rest

/-- `TruffleHogScanner.Scan`: availability check, stdout pipe creation
and subprocess start can each fail and abort the scan; after a
successful start the line loop runs, a read error (`scanner.Err`) and a
non-zero exit (`cmd.Wait`) are only logged — `readErr` and `waitErr`
therefore do not influence the returned value. -/
def TruffleHogScanner.Scan (available : Bool) (pipeErr startErr : Option String)
    (parse : String → Option TruffleRecord) (lines : List String)
    (readErr waitErr : Option String) : Except String (List Finding) :=
  if ¬ available then .error "trufflehog is not installed"
  else
    match pipeErr with
    | some e => .error ("failed to create stdout pipe: " ++ e)
    | none =>
      match startErr with
      | some e => .error ("failed to start trufflehog: " ++ e)
      | none =>
        let _ := readErr
        let _ := waitErr
        .ok (processLines parse lines)

/-! ### Orchestrator client (src/internal/orchestrator/client.go) -/

/-- `Client.CreateFindings`: with an empty finding list it returns nil
immediately without issuing the RPC; otherwise the RPC runs and a
transport failure (`rpcErr = some e`) is wrapped and returned. The first
component records whether the RPC was issued. -/
def Client.CreateFindings (findings : List Finding) (rpcErr : Option String) :
    Bool × Option String :=
  if findings.length = 0 then (false, none)
  else
    match rpcErr with
    | some e => (true, some ("failed to create findings: " ++ e))
    | none => (true, none)

/-! ### The `runScan` driver (src/unnamed/part_002)

`runScan` is modelled as a function from the run's environment — the
outcomes of the external interactions it performs — to the trace of
orchestrator calls it issues plus its own return value. Failures of
`UpdateScanStatus` calls are logged only and never branch the control
flow, so their outcomes need no parameter; the calls themselves appear
in the trace (the Go code always attempts them). -/

/-- One orchestrator-client call issued by `runScan`. -/
inductive Call
  | updateScanStatus (status : ScanStatus) (errorMsg : String)
  | createFindings (findings : List Finding)
  | updateFindingsCount (count : Nat)
deriving Repr, DecidableEq

/-- Everything external that determines one `runScan` execution:
the connection attempt, the configured source, the download/clone
outcome, the scanner list produced by `initializeScanners`, and the
outcome of the `CreateFindings` RPC (used only if it is issued). -/
structure RunEnv where
  connectError : Option String
  sourceDownloadURL : String
  gitURL : String
  downloadError : Option String
  cloneError : Option String
  scannerList : List Scanner
  createFindingsRPCError : Option String
deriving Repr, DecidableEq

/-- The observable outcome of `runScan`: the orchestrator calls issued,
in order, and the returned error (`none` = nil return). -/
structure RunOutcome where
  calls : List Call
  ret : Option String
deriving Repr, DecidableEq

/-- Go `fmt`'s `%v` rendering of a `[]string`. -/
def fmtStringSlice (xs : List String) : String :=
  "[" ++ String.intercalate " " xs ++ "]"

/-- One iteration of the result-collection loop of `runScan`
(lines 115–128): an errored slot appends `"name: err"` to `scanErrors`
and contributes no findings; a clean slot appends its findings. -/
def collectStep (acc : List Finding × List String) (r : Result) :
    List Finding × List String :=
  match r.Error with
  | some e => (acc.1, acc.2 ++ [r.ScannerName ++ ": " ++ e])
  | none => (acc.1 ++ r.Findings, acc.2)

/-- The result-collection loop of `runScan`: walk the results in order,
starting from empty `allFindings` and `scanErrors`. -/
def collectResults (results : List Result) : List Finding × List String :=
  results.foldl collectStep ([], [])

/-- `runScan` from the point where the working directory is populated:
the scanner-availability check, the parallel run, finding collection,
the conditional upload block, and the terminal status update. -/
def runScanAfterSource (env : RunEnv) (calls0 : List Call) : RunOutcome :=
  if env.scannerList.length = 0 then
    { calls := calls0 ++
        [.updateScanStatus .FAILED "No scanners available for requested scan types"]
      ret := some "no scanners available" }
  else
    let results := runScannersParallel env.scannerList
    let collected := collectResults results
    let allFindings := collected.1
    let upload :=
      if allFindings.length > 0 then
        let clientResult := Client.CreateFindings allFindings env.createFindingsRPCError
        let errs :=
          match clientResult.2 with
          | some e => collected.2 ++ ["Failed to upload findings: " ++ e]
          | none => collected.2
        ([Call.createFindings allFindings,
          Call.updateFindingsCount allFindings.length], errs)
      else ([], collected.2)
    if upload.2.length > 0 then
      { calls := calls0 ++ upload.1 ++
          [.updateScanStatus .FAILED
            ("Scan completed with errors: " ++ fmtStringSlice upload.2)]
        ret := some ("scan had errors: " ++ fmtStringSlice upload.2) }
    else
      { calls := calls0 ++ upload.1 ++ [.updateScanStatus .COMPLETED ""]
        ret := none }

/-- `runScan` (src/unnamed/part_002, lines 52–156). -/
def runScan (env : RunEnv) : RunOutcome :=
  match env.connectError with
  | some e =>
    { calls := [], ret := some ("failed to connect to orchestrator: " ++ e) }
  | none =>
    let calls0 := [Call.updateScanStatus .RUNNING ""]
    if env.sourceDownloadURL ≠ "" then
      match env.downloadError with
      | some e =>
        { calls := calls0 ++
            [.updateScanStatus .FAILED ("Failed to download source: " ++ e)]
          ret := some ("failed to download source: " ++ e) }
      | none => runScanAfterSource env calls0
    else if env.gitURL ≠ "" then
      match env.cloneError with
      | some e =>
        { calls := calls0 ++
            [.updateScanStatus .FAILED ("Failed to clone repository: " ++ e)]
          ret := some ("failed to clone repository: " ++ e) }
      | none => runScanAfterSource env calls0
    else
      { calls := calls0 ++
          [.updateScanStatus .FAILED
            "No source specified: neither SOURCE_DOWNLOAD_URL nor REPOSITORY_URL provided"]
        ret := some "No source specified: neither SOURCE_DOWNLOAD_URL nor REPOSITORY_URL provided" }

/-! ### Trace observers -/

/-- The sequence of statuses carried by the `UpdateScanStatus` calls of
a trace, in order. -/
def statusUpdates (calls : List Call) : List ScanStatus :=
  calls.filterMap fun c =>
    match c with
    | .updateScanStatus s _ => some s
    | _ => none

/-- The findings of the slots whose adapter did not fail, concatenated
in slot order. -/
def succeededFindings (results : List Result) : List Finding :=
  (results.filter fun r => r.Error = none).flatMap fun r => r.Findings

/-- The `"name: err"` entries contributed by the failed slots, in slot
order. -/
def failedEntries (results : List Result) : List String :=
  results.filterMap fun r => r.Error.map fun e => r.ScannerName ++ ": " ++ e

/-! ### Concrete fixtures for witnesses and counterexamples -/

/-- Fixture: an available SCA adapter run that finds nothing and does
not fail. -/
def demoScanner : Scanner :=
  { Name := "trivy", scanType := .SCA, scanFindings := [], scanError := none }

/-- Fixture: a default result slot value. -/
def demoResult : Result :=
  { Findings := [], ScanType := .SAST, ScannerName := "", Error := none }

/-- Fixture: a stand-in for `json.Unmarshal` on TruffleHog output lines
that decodes exactly the line `secret-line`. -/
def demoParse : String → Option TruffleRecord :=
  fun l =>
    if l = "secret-line" then
      some { file := "config.env", line := 3, detectorName := "AWS", verified := false }
    else none

/-- Fixture: one SCA finding, as the Trivy adapter would produce it. -/
def cveFinding : Finding :=
  { scanType := .SCA, severity := .HIGH, title := "CVE-1 in pkg@1.0"
    description := "vulnerable dependency", filePath := "go.mod", cveId := "CVE-1" }

/-- Fixture: a run whose single adapter succeeds with one finding while
the `CreateFindings` RPC fails. -/
def env1 : RunEnv :=
  { connectError := none
    sourceDownloadURL := "https://example.invalid/source.zip"
    gitURL := ""
    downloadError := none
    cloneError := none
    scannerList := [{ Name := "trivy", scanType := .SCA,
                      scanFindings := [cveFinding], scanError := none }]
    createFindingsRPCError := some "rpc unavailable" }

/-- Fixture: a SAST adapter run succeeding with three findings. -/
def sastScanner4 : Scanner :=
  { Name := "semgrep", scanType := .SAST
    scanFindings :=
      [{ scanType := .SAST, severity := .HIGH, title := "rule-1",
         description := "d1", filePath := "a.go", lineNumber := 1 },
       { scanType := .SAST, severity := .MEDIUM, title := "rule-2",
         description := "d2", filePath := "b.go", lineNumber := 2 },
       { scanType := .SAST, severity := .LOW, title := "rule-3",
         description := "d3", filePath := "c.go", lineNumber := 3 }]
    scanError := none }

/-- Fixture: an SCA adapter run failing outright. -/
def scaScanner4 : Scanner :=
  { Name := "trivy", scanType := .SCA, scanFindings := [],
    scanError := some "trivy is not installed" }

/-- Fixture: a run with one failed and one succeeding adapter. -/
def env4 : RunEnv :=
  { connectError := none
    sourceDownloadURL := "https://example.invalid/source.zip"
    gitURL := ""
    downloadError := none
    cloneError := none
    scannerList := [sastScanner4, scaScanner4]
    createFindingsRPCError := none }

/-- Fixture: a run whose single adapter succeeds with zero findings. -/
def env7 : RunEnv :=
  { connectError := none
    sourceDownloadURL := "https://example.invalid/source.zip"
    gitURL := ""
    downloadError := none
    cloneError := none
    scannerList := [{ Name := "semgrep", scanType := .SAST,
                      scanFindings := [], scanError := none }]
    createFindingsRPCError := none }

end CloudScan

namespace CloudScan

/-! ## Supporting lemmas -/

/-- The collection loop, from an arbitrary accumulator: it appends the
succeeding slots' findings and the failed slots' error entries. -/
lemma collectStep_go (results : List Result) (fs : List Finding) (es : List String) :
    results.foldl collectStep (fs, es)
      = (fs ++ succeededFindings results, es ++ failedEntries results) := by
  induction results generalizing fs es with
  | nil => simp [succeededFindings, failedEntries]
  | cons r rest ih =>
    cases hr : r.Error with
    | some e =>
      simp [collectStep, hr, ih, succeededFindings, failedEntries,
        List.filter_cons, List.filterMap_cons]
    | none =>
      simp [collectStep, hr, ih, succeededFindings, failedEntries,
        List.filter_cons, List.filterMap_cons]

/-- The collection loop computes exactly the succeeding slots' findings
and the failed slots' error entries. -/
lemma collectResults_eq (results : List Result) :
    collectResults results = (succeededFindings results, failedEntries results) := by
  simpa using collectStep_go results [] []

/-- Status observation distributes over trace concatenation. -/
lemma statusUpdates_append (a b : List Call) :
    statusUpdates (a ++ b) = statusUpdates a ++ statusUpdates b := by
  simp [statusUpdates]

/-- Once the working directory is populated, the remainder of `runScan`
issues exactly one further status update, and it is terminal. -/
lemma runScanAfterSource_status (env : RunEnv) (calls0 : List Call) :
    ∃ t, (t = ScanStatus.COMPLETED ∨ t = ScanStatus.FAILED) ∧
      statusUpdates (runScanAfterSource env calls0).calls
        = statusUpdates calls0 ++ [t] := by
  unfold runScanAfterSource
  split
  · exact ⟨.FAILED, Or.inr rfl, by simp [statusUpdates_append, statusUpdates]⟩
  · simp only []
    split
    · split
      · exact ⟨.FAILED, Or.inr rfl, by simp [statusUpdates_append, statusUpdates]⟩
      · exact ⟨.COMPLETED, Or.inl rfl, by simp [statusUpdates_append, statusUpdates]⟩
    · split
      · exact ⟨.FAILED, Or.inr rfl, by simp [statusUpdates_append, statusUpdates]⟩
      · exact ⟨.COMPLETED, Or.inl rfl, by simp [statusUpdates_append, statusUpdates]⟩

/-- Every file write performed by the extraction loop targets a path
that passes the zip-slip containment check. -/
lemma extractZipRun_writes (entries : List ZipEntry) (destDir : String) :
    ∀ p, FileAction.writeFile p ∈ (extractZipRun entries destDir).1 →
      withinDir destDir p = true := by
  induction entries with
  | nil => intro p hp; simp [extractZipRun] at hp
  | cons f rest ih =>
    intro p hp
    unfold extractZipRun at hp
    cases hf : extractFile f destDir with
    | error e => rw [hf] at hp; simp at hp
    | ok acts =>
      rw [hf] at hp
      simp only [List.mem_append] at hp
      rcases hp with hp | hp
      · unfold extractFile at hf
        by_cases hw : withinDir destDir (Join2 destDir f.name)
        · rw [if_neg (by simpa using hw)] at hf
          by_cases hd : f.isDir
          · rw [if_pos hd] at hf
            cases hf
            simp at hp
          · rw [if_neg hd] at hf
            cases hf
            simp at hp
            subst hp
            simpa using hw
        · rw [if_pos (by simpa using hw)] at hf
          cases hf
      · exact ih p (by simpa using hp)

/-- An archive holding an entry that fails the containment check makes
the extraction loop return an error. -/
lemma extractZipRun_error_of_escape (entries : List ZipEntry) (destDir : String)
    (hbad : ∃ f ∈ entries, withinDir destDir (Join2 destDir f.name) = false) :
    (extractZipRun entries destDir).2.isSome = true := by
  induction entries with
  | nil => simp at hbad
  | cons f rest ih =>
    unfold extractZipRun
    cases hf : extractFile f destDir with
    | error e => simp
    | ok acts =>
      simp only []
      obtain ⟨g, hg, hgw⟩ := hbad
      rcases List.mem_cons.mp hg with hg | hg
      · subst hg
        unfold extractFile at hf
        rw [if_pos (by simp [hgw])] at hf
        cases hf
      · exact ih ⟨g, hg, hgw⟩

/-- A scanner list whose members all succeed yields no failed entries. -/
lemma failedEntries_nil (l : List Scanner) (hok : ∀ s ∈ l, s.scanError = none) :
    failedEntries (runScannersParallel l) = [] := by
  induction l with
  | nil => rfl
  | cons s rest ih =>
    have hs := hok s (by simp)
    simp only [runScannersParallel, List.map_cons, failedEntries, List.filterMap_cons] at *
    rw [hs]
    simpa [failedEntries, runScannersParallel] using ih fun t ht => hok t (by simp [ht])

/-- A failed scanner's `"name: err"` entry occurs among the failed
entries of the parallel run. -/
lemma mem_failedEntries {l : List Scanner} {s : Scanner} {e : String}
    (hs : s ∈ l) (he : s.scanError = some e) :
    (s.Name ++ ": " ++ e) ∈ failedEntries (runScannersParallel l) := by
  unfold failedEntries runScannersParallel
  rw [List.filterMap_map]
  exact List.mem_filterMap.mpr ⟨s, hs, by simp [Function.comp, he]⟩

/-- A succeeding scanner's findings occur among the collected findings
of the parallel run. -/
lemma mem_succeededFindings {l : List Scanner} {s : Scanner} {f : Finding}
    (hs : s ∈ l) (he : s.scanError = none) (hf : f ∈ s.scanFindings) :
    f ∈ succeededFindings (runScannersParallel l) := by
  unfold succeededFindings runScannersParallel
  apply List.mem_flatMap.mpr
  refine ⟨{ Findings := s.scanFindings, ScanType := s.scanType,
            ScannerName := s.Name, Error := s.scanError }, ?_, hf⟩
  apply List.mem_filter.mpr
  exact ⟨List.mem_map.mpr ⟨s, hs, rfl⟩, by simp [he]⟩

/-- When some scanner succeeded with findings, the tail of `runScan`
takes the upload branch; this spells out the resulting outcome in terms
of the succeeded findings, the failed entries, and the RPC outcome. -/
lemma runScanAfterSource_eq_findings (env : RunEnv) (calls0 : List Call)
    (hlen : env.scannerList.length ≠ 0)
    (hSFpos : 0 < (succeededFindings (runScannersParallel env.scannerList)).length) :
    runScanAfterSource env calls0 =
      (let SF := succeededFindings (runScannersParallel env.scannerList)
       let errs :=
         match env.createFindingsRPCError with
         | some e => failedEntries (runScannersParallel env.scannerList)
             ++ ["Failed to upload findings: " ++ ("failed to create findings: " ++ e)]
         | none => failedEntries (runScannersParallel env.scannerList)
       let up := [Call.createFindings SF, Call.updateFindingsCount SF.length]
       if 0 < errs.length then
         { calls := calls0 ++ up ++
             [Call.updateScanStatus .FAILED
               ("Scan completed with errors: " ++ fmtStringSlice errs)]
           ret := some ("scan had errors: " ++ fmtStringSlice errs) }
       else
         { calls := calls0 ++ up ++ [Call.updateScanStatus .COMPLETED ""]
           ret := none }) := by
  have hne0 : (succeededFindings (runScannersParallel env.scannerList)).length ≠ 0 := by
    omega
  unfold runScanAfterSource
  rw [if_neg hlen]
  cases hrpc : env.createFindingsRPCError with
  | none =>
    have hclient : Client.CreateFindings
        (succeededFindings (runScannersParallel env.scannerList)) none = (true, none) := by
      unfold Client.CreateFindings
      rw [if_neg hne0]
    simp [collectResults_eq, hSFpos, hclient]
  | some e =>
    have hclient : Client.CreateFindings
        (succeededFindings (runScannersParallel env.scannerList)) (some e)
        = (true, some ("failed to create findings: " ++ e)) := by
      unfold Client.CreateFindings
      rw [if_neg hne0]
    simp [collectResults_eq, hSFpos, hclient]

end CloudScan

namespace CloudScan

/-! ## Claims -/

/-- C1 (counterexample): in the run `env1` every adapter succeeded and
the `CreateFindings` RPC failed, yet the terminal status reported is
FAILED and `runScan` returns an error — contradicting the claim that a
finding-delivery failure leaves the completion determination unchanged
(logged only, COMPLETED, success return). -/
theorem C1_counterexample :
    (env1.scannerList.all fun s => s.scanError.isNone) = true ∧
    env1.createFindingsRPCError.isSome = true ∧
    Call.createFindings [cveFinding] ∈ (runScan env1).calls ∧
    statusUpdates (runScan env1).calls = [ScanStatus.RUNNING, ScanStatus.FAILED] ∧
    (runScan env1).ret ≠ none := by
  decide

/-- C1 (amended): when all adapters succeed with at least one finding
and the `CreateFindings` RPC fails, `runScan` appends the upload failure
to its scan errors: the terminal status reported is FAILED carrying the
upload-failure message, and `runScan` returns an error. (Failures of the
status-update RPCs themselves remain logged-only.) -/
theorem C1_amended (env : RunEnv) (e : String)
    (hc : env.connectError = none) (hurl : env.sourceDownloadURL ≠ "")
    (hdl : env.downloadError = none)
    (hok : ∀ s ∈ env.scannerList, s.scanError = none)
    (hne : succeededFindings (runScannersParallel env.scannerList) ≠ [])
    (hrpc : env.createFindingsRPCError = some e) :
    statusUpdates (runScan env).calls = [ScanStatus.RUNNING, ScanStatus.FAILED] ∧
    (runScan env).ret
      = some ("scan had errors: " ++
          fmtStringSlice ["Failed to upload findings: " ++
            ("failed to create findings: " ++ e)]) := by
  have hrun : runScan env = runScanAfterSource env [Call.updateScanStatus .RUNNING ""] := by
    unfold runScan
    rw [hc]
    simp only [if_pos hurl, hdl]
  have hlen : env.scannerList.length ≠ 0 := by
    intro h0
    rw [List.length_eq_zero] at h0
    apply hne
    simp [h0, succeededFindings, runScannersParallel]
  have hSF : (collectResults (runScannersParallel env.scannerList))
      = (succeededFindings (runScannersParallel env.scannerList), []) := by
    rw [collectResults_eq, failedEntries_nil env.scannerList hok]
  have hSFlen : (succeededFindings (runScannersParallel env.scannerList)).length > 0 := by
    cases h : succeededFindings (runScannersParallel env.scannerList) with
    | nil => exact absurd h hne
    | cons a l => simp [h]
  have hclient : Client.CreateFindings
      (succeededFindings (runScannersParallel env.scannerList)) env.createFindingsRPCError
      = (true, some ("failed to create findings: " ++ e)) := by
    unfold Client.CreateFindings
    rw [if_neg (by omega), hrpc]
  rw [hrun]
  unfold runScanAfterSource
  rw [if_neg hlen]
  simp [hSF, hclient, hSFlen, statusUpdates_append, statusUpdates]

/-- C1 (amended, witness): the amended statement instantiated on the
concrete run `env1`. -/
theorem C1_amended_witness :
    statusUpdates (runScan env1).calls = [ScanStatus.RUNNING, ScanStatus.FAILED] ∧
    (runScan env1).ret
      = some ("scan had errors: " ++
          fmtStringSlice ["Failed to upload findings: " ++
            ("failed to create findings: " ++ "rpc unavailable")]) := by
  exact C1_amended env1 "rpc unavailable" (by decide) (by decide) (by decide)
    (by decide) (by decide) (by decide)

/-- C2: an archive containing an entry whose resolved destination path
escapes the destination root makes `extractZip` fail, and every file the
extraction loop writes lies lexically within the destination root. -/
theorem C2_zip_slip (entries : List ZipEntry) (destDir : String)
    (hbad : ∃ f ∈ entries, withinDir destDir (Join2 destDir f.name) = false) :
    (extractZip entries destDir).isSome = true ∧
    ∀ p, FileAction.writeFile p ∈ (extractZipRun entries destDir).1 →
      withinDir destDir p = true := by
  exact ⟨extractZipRun_error_of_escape entries destDir hbad,
    extractZipRun_writes entries destDir⟩

/-- C2 (witness): a concrete adversarial archive with a climbing entry
fails to extract, and the one file written before the bad entry is
within the root. -/
theorem C2_witness :
    (extractZip [⟨"ok.txt", false⟩, ⟨"../../etc/passwd", false⟩] "/work").isSome = true ∧
    withinDir "/work" "/work/ok.txt" = true := by
  have h := C2_zip_slip [⟨"ok.txt", false⟩, ⟨"../../etc/passwd", false⟩] "/work"
    ⟨⟨"../../etc/passwd", false⟩, by decide, by decide⟩
  exact ⟨h.1, h.2 "/work/ok.txt" (by decide)⟩

/-- C3: `runScannersParallel` returns one result per input scanner, and
slot `i` carries scanner `i`'s name and scan type. -/
theorem C3_index_correspondence (scannerList : List Scanner) :
    (runScannersParallel scannerList).length = scannerList.length ∧
    ∀ (r0 : Result) (s0 : Scanner) (i : Nat), i < scannerList.length →
      ((runScannersParallel scannerList).getD i r0).ScannerName
          = (scannerList.getD i s0).Name ∧
      ((runScannersParallel scannerList).getD i r0).ScanType
          = (scannerList.getD i s0).scanType := by
  constructor
  · simp [runScannersParallel]
  · intro r0 s0 i hi
    induction scannerList generalizing i with
    | nil => simp at hi
    | cons s rest ih =>
      cases i with
      | zero => simp [runScannersParallel]
      | succ j =>
        simp only [runScannersParallel, List.map_cons, List.getD_cons_succ]
        exact ih j (by simpa using hi)

/-- C3 (witness): index correspondence instantiated at slot 0 of a
one-scanner run. -/
theorem C3_witness :
    ((runScannersParallel [demoScanner]).getD 0 demoResult).ScannerName = "trivy" ∧
    ((runScannersParallel [demoScanner]).getD 0 demoResult).ScanType = ScanType.SCA := by
  have h := (C3_index_correspondence [demoScanner]).2 demoResult demoScanner 0 (by decide)
  simpa [demoScanner] using h

/-- C4: with at least one failed and one succeeding adapter (the latter
with findings), `runScan` still calls `CreateFindings` with exactly the
succeeding adapters' findings, reports RUNNING then FAILED, and the
FAILED message is built from an error list containing an entry naming
each failed adapter. -/
theorem C4_partial_failure (env : RunEnv)
    (hc : env.connectError = none) (hurl : env.sourceDownloadURL ≠ "")
    (hdl : env.downloadError = none)
    (hfail : ∃ s ∈ env.scannerList, ∃ e, s.scanError = some e)
    (hsucc : ∃ s ∈ env.scannerList, s.scanError = none ∧ s.scanFindings ≠ []) :
    Call.createFindings (succeededFindings (runScannersParallel env.scannerList))
        ∈ (runScan env).calls ∧
    succeededFindings (runScannersParallel env.scannerList) ≠ [] ∧
    statusUpdates (runScan env).calls = [ScanStatus.RUNNING, ScanStatus.FAILED] ∧
    ∃ errs,
      Call.updateScanStatus .FAILED ("Scan completed with errors: " ++ fmtStringSlice errs)
        ∈ (runScan env).calls ∧
      ∀ s ∈ env.scannerList, ∀ e, s.scanError = some e → (s.Name ++ ": " ++ e) ∈ errs := by
  obtain ⟨sb, hsbmem, eb, hsberr⟩ := hfail
  obtain ⟨sg, hsgmem, hsgok, hsgfind⟩ := hsucc
  have hrun : runScan env = runScanAfterSource env [Call.updateScanStatus .RUNNING ""] := by
    unfold runScan
    rw [hc]
    simp only [if_pos hurl, hdl]
  have hlen : env.scannerList.length ≠ 0 := by
    intro h0
    rw [List.length_eq_zero] at h0
    rw [h0] at hsbmem
    simp at hsbmem
  have hSFne : succeededFindings (runScannersParallel env.scannerList) ≠ [] := by
    obtain ⟨f, hf⟩ := List.exists_mem_of_ne_nil sg.scanFindings hsgfind
    have hmem := mem_succeededFindings hsgmem hsgok hf
    intro hnil
    rw [hnil] at hmem
    simp at hmem
  have hSFpos : 0 < (succeededFindings (runScannersParallel env.scannerList)).length :=
    List.length_pos.mpr hSFne
  have hFEmem : (sb.Name ++ ": " ++ eb) ∈ failedEntries (runScannersParallel env.scannerList) :=
    mem_failedEntries hsbmem hsberr
  have hFEpos : 0 < (failedEntries (runScannersParallel env.scannerList)).length := by
    apply List.length_pos.mpr
    intro hnil
    rw [hnil] at hFEmem
    simp at hFEmem
  have heq := runScanAfterSource_eq_findings env [Call.updateScanStatus .RUNNING ""] hlen hSFpos
  rw [hrun, heq]
  cases hrpc : env.createFindingsRPCError with
  | none =>
    simp only [hrpc]
    rw [if_pos hFEpos]
    refine ⟨by simp, hSFne, by simp [statusUpdates_append, statusUpdates],
      failedEntries (runScannersParallel env.scannerList), by simp, ?_⟩
    intro s hs e he
    exact mem_failedEntries hs he
  | some e' =>
    simp only [hrpc]
    have herrpos : 0 < (failedEntries (runScannersParallel env.scannerList)
        ++ ["Failed to upload findings: " ++ ("failed to create findings: " ++ e')]).length := by
      simp
    rw [if_pos herrpos]
    refine ⟨by simp, hSFne, by simp [statusUpdates_append, statusUpdates],
      failedEntries (runScannersParallel env.scannerList)
        ++ ["Failed to upload findings: " ++ ("failed to create findings: " ++ e')], by simp, ?_⟩
    intro s hs e he
    exact List.mem_append_left _ (mem_failedEntries hs he)

/-- C4 (witness): the mixed run `env4` (one failing adapter, one
succeeding with 3 findings) delivers the 3 findings and ends FAILED. -/
theorem C4_witness :
    Call.createFindings (succeededFindings (runScannersParallel env4.scannerList))
        ∈ (runScan env4).calls ∧
    succeededFindings (runScannersParallel env4.scannerList) ≠ [] ∧
    (succeededFindings (runScannersParallel env4.scannerList)).length = 3 ∧
    statusUpdates (runScan env4).calls = [ScanStatus.RUNNING, ScanStatus.FAILED] := by
  have h := C4_partial_failure env4 (by decide) (by decide) (by decide)
    ⟨scaScanner4, by decide, "trivy is not installed", by decide⟩
    ⟨sastScanner4, by decide, by decide, by decide⟩
  exact ⟨h.1, h.2.1, by decide, h.2.2.1⟩

/-- C5: each severity mapping is total — the enumerated inputs map as
documented and every other string maps to MEDIUM. -/
theorem C5_severity_total :
    (SemgrepScanner.mapSeverity "ERROR" = .HIGH ∧
     SemgrepScanner.mapSeverity "WARNING" = .MEDIUM ∧
     SemgrepScanner.mapSeverity "INFO" = .LOW) ∧
    (TrivyScanner.mapSeverity "CRITICAL" = .CRITICAL ∧
     TrivyScanner.mapSeverity "HIGH" = .HIGH ∧
     TrivyScanner.mapSeverity "MEDIUM" = .MEDIUM ∧
     TrivyScanner.mapSeverity "LOW" = .LOW) ∧
    (ScanCodeScanner.getLicenseSeverity "Copyleft" = .HIGH ∧
     ScanCodeScanner.getLicenseSeverity "Strong Copyleft" = .HIGH ∧
     ScanCodeScanner.getLicenseSeverity "Copyleft Limited" = .MEDIUM ∧
     ScanCodeScanner.getLicenseSeverity "Permissive" = .LOW ∧
     ScanCodeScanner.getLicenseSeverity "Proprietary Free" = .LOW) ∧
    (∀ s : String, s ≠ "ERROR" → s ≠ "WARNING" → s ≠ "INFO" →
      SemgrepScanner.mapSeverity s = .MEDIUM) ∧
    (∀ s : String, s ≠ "CRITICAL" → s ≠ "HIGH" → s ≠ "MEDIUM" → s ≠ "LOW" →
      TrivyScanner.mapSeverity s = .MEDIUM) ∧
    (∀ s : String, s ≠ "Copyleft" → s ≠ "Strong Copyleft" → s ≠ "Copyleft Limited" →
      s ≠ "Permissive" → s ≠ "Proprietary Free" →
      ScanCodeScanner.getLicenseSeverity s = .MEDIUM) := by
  refine ⟨by decide, by decide, by decide, ?_, ?_, ?_⟩
  · intro s h1 h2 h3
    simp [SemgrepScanner.mapSeverity, h1, h2, h3]
  · intro s h1 h2 h3 h4
    simp [TrivyScanner.mapSeverity, h1, h2, h3, h4]
  · intro s h1 h2 h3 h4 h5
    simp [ScanCodeScanner.getLicenseSeverity, h1, h2, h3, h4, h5]

/-- C5 (witness): the default branch of each mapping evaluated on
unrecognized strings. -/
theorem C5_witness :
    SemgrepScanner.mapSeverity "UNKNOWN" = Severity.MEDIUM ∧
    TrivyScanner.mapSeverity "UNKNOWN" = Severity.MEDIUM ∧
    ScanCodeScanner.getLicenseSeverity "Unstated License" = Severity.MEDIUM := by
  obtain ⟨-, -, -, hsem, htri, hsc⟩ := C5_severity_total
  exact ⟨hsem "UNKNOWN" (by decide) (by decide) (by decide),
    htri "UNKNOWN" (by decide) (by decide) (by decide) (by decide),
    hsc "Unstated License" (by decide) (by decide) (by decide) (by decide) (by decide)⟩

/-- C6: the streaming parse of the secrets adapter returns one finding
per non-empty line the decoder accepts; an undecodable line is skipped
without affecting the rest, and the scan still returns successfully. -/
theorem C6_streaming_line_tolerance (parse : String → Option TruffleRecord)
    (lines : List String) (badLine : String) (rest : List String)
    (hne : badLine ≠ "") (hbad : parse badLine = none) :
    (processLines parse lines).length
      = lines.countP (fun l => !(l == "") && (parse l).isSome) ∧
    processLines parse (badLine :: rest) = processLines parse rest ∧
    TruffleHogScanner.Scan true none none parse lines none none
      = .ok (processLines parse lines) := by
  refine ⟨?_, ?_, rfl⟩
  · induction lines with
    | nil => simp [processLines]
    | cons l ls ih =>
      by_cases hl : l = ""
      · simp [processLines, hl, List.countP_cons, ih]
      · cases hp : parse l with
        | none => simp [processLines, hl, hp, List.countP_cons, ih]
        | some r => simp [processLines, hl, hp, List.countP_cons, ih]
  · simp [processLines, hne, hbad]

/-- C6 (witness): two decodable lines, one malformed line and one empty
line yield exactly two findings. -/
theorem C6_witness :
    (processLines demoParse
      ["secret-line", "not json", "", "secret-line"]).length = 2 := by
  have h := C6_streaming_line_tolerance demoParse
    ["secret-line", "not json", "", "secret-line"]
    "not json" [] (by decide) (by simp [demoParse])
  rw [h.1]
  decide

/-- C7: `Client.CreateFindings` on an empty list issues no RPC and
returns nil; and a run whose collected findings are empty issues neither
a `CreateFindings` nor an `UpdateFindingsCount` call. -/
theorem C7_empty_findings_skip :
    (∀ rpcErr : Option String, Client.CreateFindings [] rpcErr = (false, none)) ∧
    ∀ env : RunEnv,
      (collectResults (runScannersParallel env.scannerList)).1 = [] →
      (∀ fs, Call.createFindings fs ∉ (runScan env).calls) ∧
      (∀ n, Call.updateFindingsCount n ∉ (runScan env).calls) := by
  constructor
  · intro rpcErr; rfl
  · intro env hempty
    have hafter : ∀ calls0,
        (∀ fs, Call.createFindings fs ∉ calls0) →
        (∀ n, Call.updateFindingsCount n ∉ calls0) →
        (∀ fs, Call.createFindings fs ∉ (runScanAfterSource env calls0).calls) ∧
        (∀ n, Call.updateFindingsCount n ∉ (runScanAfterSource env calls0).calls) := by
      intro calls0 hcf hfc
      unfold runScanAfterSource
      split
      · constructor <;> intro x <;> simp [hcf, hfc]
      · simp only []
        rw [hempty]
        simp only [List.length_nil, gt_iff_lt, Nat.lt_irrefl, if_false]
        split
        · constructor <;> intro x <;> simp [hcf, hfc]
        · constructor <;> intro x <;> simp [hcf, hfc]
    unfold runScan
    cases henv : env.connectError with
    | some e => constructor <;> intro x <;> simp
    | none =>
      simp only []
      split
      · cases hd : env.downloadError with
        | some e => constructor <;> intro x <;> simp
        | none => exact hafter _ (by intro fs; simp) (by intro n; simp)
      · split
        · cases hcl : env.cloneError with
          | some e => constructor <;> intro x <;> simp
          | none => exact hafter _ (by intro fs; simp) (by intro n; simp)
        · constructor <;> intro x <;> simp

/-- C7 (witness): the empty-findings run `env7` issues no delivery or
count call, and the client is a no-op on an empty list. -/
theorem C7_witness :
    Client.CreateFindings [] (some "rpc down") = (false, none) ∧
    Call.createFindings [] ∉ (runScan env7).calls ∧
    Call.updateFindingsCount 0 ∉ (runScan env7).calls := by
  obtain ⟨hclient, hrun⟩ := C7_empty_findings_skip
  obtain ⟨hcf, hfc⟩ := hrun env7 (by decide)
  exact ⟨hclient (some "rpc down"), hcf [], hfc 0⟩

/-- C8: in every execution of `runScan`, the sequence of status updates
is empty, or RUNNING followed by exactly one terminal status; in
particular RUNNING precedes any terminal update, at most one terminal
status is reported, and no RUNNING follows a terminal one. -/
theorem C8_status_monotonic (env : RunEnv) :
    statusUpdates (runScan env).calls = [] ∨
    statusUpdates (runScan env).calls = [ScanStatus.RUNNING, ScanStatus.COMPLETED] ∨
    statusUpdates (runScan env).calls = [ScanStatus.RUNNING, ScanStatus.FAILED] := by
  unfold runScan
  cases henv : env.connectError with
  | some e => left; simp [statusUpdates]
  | none =>
    simp only []
    split
    · cases hd : env.downloadError with
      | some e => right; right; simp [statusUpdates]
      | none =>
        obtain ⟨t, ht, hsu⟩ := runScanAfterSource_status env [Call.updateScanStatus .RUNNING ""]
        rcases ht with h | h
        · right; left; rw [hsu, h]; simp [statusUpdates]
        · right; right; rw [hsu, h]; simp [statusUpdates]
    · split
      · cases hcl : env.cloneError with
        | some e => right; right; simp [statusUpdates]
        | none =>
          obtain ⟨t, ht, hsu⟩ := runScanAfterSource_status env [Call.updateScanStatus .RUNNING ""]
          rcases ht with h | h
          · right; left; rw [hsu, h]; simp [statusUpdates]
          · right; right; rw [hsu, h]; simp [statusUpdates]
      · right; right; simp [statusUpdates]

/-- C9: once the TruffleHog subprocess has started, the scan returns a
nil error whatever the read and exit outcomes are; a crash with no
output yields a successful scan with zero findings. -/
theorem C9_post_start_success (parse : String → Option TruffleRecord)
    (lines : List String) (readErr waitErr : Option String) :
    TruffleHogScanner.Scan true none none parse lines readErr waitErr
      = .ok (processLines parse lines) ∧
    TruffleHogScanner.Scan true none none parse [] readErr waitErr = .ok [] := by
  exact ⟨rfl, rfl⟩

/-- C10: `downloadFile` rejects every response whose status code is not
exactly 200, and `DownloadAndExtract` then fails having performed no
extraction action. -/
theorem C10_strict_200 (resp : HTTPResponse) (createErr copyErr zipOpenErr : Option String)
    (entries : List ZipEntry) (destDir : String) (hcode : resp.statusCode ≠ 200) :
    downloadFile none none resp createErr copyErr
      = some ("download failed with status: " ++ resp.status) ∧
    DownloadAndExtract none none none resp createErr copyErr zipOpenErr entries destDir
      = (some ("failed to download source: "
          ++ ("download failed with status: " ++ resp.status)), []) := by
  have hd : downloadFile none none resp createErr copyErr
      = some ("download failed with status: " ++ resp.status) := by
    simp [downloadFile, hcode]
  refine ⟨hd, ?_⟩
  simp [DownloadAndExtract, hd]

/-- C10 (witness): a 201 response — a 2xx code other than 200 — is
rejected and nothing is extracted. -/
theorem C10_witness :
    downloadFile none none ⟨201, "201 Created"⟩ none none
      = some ("download failed with status: 201 Created") ∧
    DownloadAndExtract none none none ⟨201, "201 Created"⟩ none none none
        [⟨"a.txt", false⟩] "/work"
      = (some "failed to download source: download failed with status: 201 Created", []) := by
  have h := C10_strict_200 ⟨201, "201 Created"⟩ none none none [⟨"a.txt", false⟩] "/work"
    (by decide)
  exact h

end CloudScan
